import Mathlib

/-!
# Verification of the mesuradors-api ingestion and conversion pipeline

Shallow embedding of `main.py` (version 1.2.9) of the `mesuradors-api`
repository: JSON values, the unit normalizer, the `gasoil_linear` tank
conversion, the two ingestion adapters (`/ingest` and `/ingest_chs`) and the
core pipeline, followed by theorems settling the specification claims.

Numbers are modelled as exact rationals (`ℚ`); the arithmetic exercised by the
claims (division, clamping, rounding to three decimals) is exact at every
input appearing in the claims, so no floating-point rounding is modelled.
External collaborators (the calibration lookup backed by the meters table and
the readings insert) are passed in as function parameters, and the pipeline
additionally returns the list of collaborator calls it made, so that claims
about "lookup/insert never invoked" are statable.
-/

/-- A JSON value as handled by the Python service: `null` doubles as Python's
`None` (a `dict.get` miss and an explicit JSON null are indistinguishable in
the source, which only ever tests `is None` / truthiness). -/
inductive JVal where
  | null
  | bool (b : Bool)
  | num (q : ℚ)
  | str (s : String)
  | arr (items : List JVal)
  | obj (fields : List (String × JVal))

/-- A Python dict with string keys, as an association list. -/
abbrev Dict := List (String × JVal)

/-- Python `d.get(key)`: the value under `key`, or `None` when absent. -/
def dget : Dict → String → JVal
  | [], _ => JVal.null
  | (k, v) :: rest, key => if k = key then v else dget rest key

/-- Python `key in d`. -/
def hasKey : Dict → String → Bool
  | [], _ => false
  | (k, _) :: rest, key => k = key || hasKey rest key

/-- `v.get(key)` when `v` is a dict, `None` otherwise (used only where the
source guards the access with `isinstance(v, dict)`). -/
def jget (v : JVal) (key : String) : JVal :=
  match v with
  | JVal.obj fields => dget fields key
  | _ => JVal.null

/-- Python `x is None`. -/
def JVal.isNull : JVal → Bool
  | JVal.null => true
  | _ => false

/-- Python `x == s` for a string literal `s` (false on any non-string). -/
def JVal.eqStr : JVal → String → Bool
  | JVal.str t, s => decide (t = s)
  | _, _ => false

/-- Python truthiness (`if x:`): `None`, `False`, `0`, `""` and empty
containers are falsy. -/
def truthy : JVal → Bool
  | JVal.null => false
  | JVal.bool b => b
  | JVal.num q => decide (q ≠ 0)
  | JVal.str s => decide (s ≠ "")
  | JVal.arr items => !items.isEmpty
  | JVal.obj fields => !fields.isEmpty

/-- ASCII whitespace as stripped by Python's `str.strip()`. -/
def pyIsSpace (c : Char) : Bool :=
  c = ' ' || c = '\t' || c = '\n' || c = '\r' || c = '\x0b' || c = '\x0c'

/-- Python `s.strip()` (ASCII whitespace; the payloads carry ASCII units). -/
def pyStrip (s : String) : String :=
  String.mk (((s.data.dropWhile pyIsSpace).reverse.dropWhile pyIsSpace).reverse)

/-- ASCII lower-casing of one character. -/
def pyLowerChar (c : Char) : Char :=
  if 'A' ≤ c ∧ c ≤ 'Z' then Char.ofNat (c.toNat + 32) else c

/-- Python `s.lower()` (ASCII; the recognized units are ASCII). -/
def pyLower (s : String) : String :=
  String.mk (s.data.map pyLowerChar)

/-- Numeric value of a decimal digit character. -/
def digitVal (c : Char) : ℕ := c.toNat - 48

/-- The natural number denoted by a list of decimal digits. -/
def natOfDigits (cs : List Char) : ℕ := cs.foldl (fun acc c => acc * 10 + digitVal c) 0

/-- Unsigned part of a Python float literal: digits with an optional single
point, at least one digit overall. -/
def parseUnsigned (cs : List Char) : Option ℚ :=
  match cs.dropWhile Char.isDigit with
  | [] => if (cs.takeWhile Char.isDigit).isEmpty then none else some (natOfDigits cs)
  | '.' :: frac =>
    if frac.all Char.isDigit && !((cs.takeWhile Char.isDigit).isEmpty && frac.isEmpty) then
      some ((natOfDigits (cs.takeWhile Char.isDigit) : ℚ)
        + (natOfDigits frac : ℚ) / ((10 : ℚ) ^ frac.length))
    else none
  | _ => none

/-- Python `float(s)` on a string: strips whitespace, then an optional sign and
a plain decimal literal. Exponent, infinity and nan forms (never exercised by
the claims or by the service's payloads) are not modelled and parse as a
failure. -/
def parsePyFloat (s : String) : Option ℚ :=
  match (pyStrip s).data with
  | [] => none
  | '+' :: r => parseUnsigned r
  | '-' :: r => (parseUnsigned r).map (fun q => -q)
  | cs => parseUnsigned cs

/-- Python `float(x)` on a JSON value; `none` models the call raising
(`TypeError` / `ValueError`). Note `float(True) = 1.0` and `float(None)`
raises. -/
def pyFloat : JVal → Option ℚ
  | JVal.num q => some q
  | JVal.bool b => some (if b then 1 else 0)
  | JVal.str s => parsePyFloat s
  | _ => none

/-- `_safe_float` from the source: `None` stays `None`, any `float(x)` failure
is caught and becomes `None`; never raises. -/
def _safe_float (x : JVal) : Option ℚ :=
  match x with
  | JVal.null => none
  | v => pyFloat v

/-- Python `str(x)`. Only the string case is exercised by the claims (device
ids in this repository are strings); the renderings of the other cases are
inessential placeholders. -/
def pyStr : JVal → String
  | JVal.null => "None"
  | JVal.bool b => if b then "True" else "False"
  | JVal.num q => toString q
  | JVal.str s => s
  | JVal.arr _ => "<list>"
  | JVal.obj _ => "<dict>"

mutual

/-- `json.dumps` of the inbound payload, stored in the audit `raw` column.
No claim inspects this string; string escaping and Python's float rendering
are not reproduced. -/
def jsonDumps : JVal → String
  | JVal.null => "null"
  | JVal.bool b => if b then "true" else "false"
  | JVal.num q => toString q
  | JVal.str s => "\x22" ++ s ++ "\x22"
  | JVal.arr items => "[" ++ dumpItems items ++ "]"
  | JVal.obj fields => "\x7b" ++ dumpFields fields ++ "\x7d"

/-- Comma-separated rendering of a JSON array's items. -/
def dumpItems : List JVal → String
  | [] => ""
  | [x] => jsonDumps x
  | x :: xs => jsonDumps x ++ ", " ++ dumpItems xs

/-- Comma-separated rendering of a JSON object's fields. -/
def dumpFields : List (String × JVal) → String
  | [] => ""
  | [(k, v)] => "\x22" ++ k ++ "\x22: " ++ jsonDumps v
  | (k, v) :: xs => "\x22" ++ k ++ "\x22: " ++ jsonDumps v ++ ", " ++ dumpFields xs

end

/-! ## Configuration constants (environment defaults from the source) -/

def PROJECT_ID : String := "mesuradors-mdc"

def DATASET_ID : String := "mesuradors"

def TABLE_METERS : String := "meters"

def TABLE_READINGS : String := "readings"

def INGEST_SECRET : String := "massanet123"

def RAW_PAYLOAD_MODE : String := "off"

def CHS_DEVICE_MAP : List (String × String) := [("nivell_gasoil_escola", "gasoil_escola")]

def VERSION : String := "1.2.9"

def table_id (table_name : String) : String :=
  PROJECT_ID ++ "." ++ DATASET_ID ++ "." ++ table_name

/-- Python `m.get(key, dflt)` on a string-to-string dict. -/
def mapGetD : List (String × String) → String → String → String
  | [], _, dflt => dflt
  | (k, v) :: rest, key, dflt => if k = key then v else mapGetD rest key dflt

/-! ## DF555 / ChirpStack helpers -/

/-- `isinstance(v, dict)` refinement. -/
def asObj : JVal → Option Dict
  | JVal.obj fields => some fields
  | _ => none

/-- `isinstance(v, str) and v.strip()`: the stripped string when non-empty. -/
def strippedStr (v : JVal) : Option String :=
  match v with
  | JVal.str s => if pyStrip s = "" then none else some (pyStrip s)
  | _ => none

/-- `extract_df555_object` from the source: the first dict among
`body.object`, `body.uplink.object`, `body.event.object`, else `{}`. -/
def extract_df555_object (body : Dict) : Dict :=
  match asObj (dget body "object") with
  | some o => o
  | none =>
    match (asObj (dget body "uplink")).bind (fun u => asObj (dget u "object")) with
    | some o => o
    | none =>
      match (asObj (dget body "event")).bind (fun ev => asObj (dget ev "object")) with
      | some o => o
      | none => []

/-- `extract_device_name` from the source: `deviceInfo.deviceName` when a
non-blank string, else a top-level `deviceName`, stripped. -/
def extract_device_name (body : Dict) : Option String :=
  match (match dget body "deviceInfo" with
         | JVal.obj di => strippedStr (dget di "deviceName")
         | _ => none) with
  | some s => some s
  | none => strippedStr (dget body "deviceName")

/-- `extract_uplink_id` from the source: first non-blank string among
`uplinkID`, `uplinkId`, `uplink_id`. -/
def extract_uplink_id (body : Dict) : Option String :=
  match strippedStr (dget body "uplinkID") with
  | some s => some s
  | none =>
    match strippedStr (dget body "uplinkId") with
    | some s => some s
    | none => strippedStr (dget body "uplink_id")

/-! ## Conversion -/

/-- `_distance_to_cm` from the source. `none` models the `unit.strip()` call
raising on a non-string, non-null unit; on the unit domain of the spec
(strings and null) it always succeeds. -/
def _distance_to_cm (value : ℚ) (unit : JVal) : Option ℚ :=
  match unit with
  | JVal.null => some value
  | JVal.str u =>
    if pyLower (pyStrip u) = "mm" then some (value / 10)
    else if pyLower (pyStrip u) = "cm" then some value
    else if pyLower (pyStrip u) = "m" then some (value * 100)
    else some value
  | _ => none

/-- `_clamp` from the source. -/
def _clamp (x lo hi : ℚ) : ℚ :=
  if x < lo then lo
  else if hi < x then hi
  else x

/-- Round to the nearest integer, ties to even — the tie behavior of Python's
builtin `round` (exact on our rational inputs). -/
def rndHalfEven (x : ℚ) : ℤ :=
  if x - ⌊x⌋ < 1/2 then ⌊x⌋
  else if 1/2 < x - ⌊x⌋ then ⌊x⌋ + 1
  else if 2 ∣ ⌊x⌋ then ⌊x⌋ else ⌊x⌋ + 1

/-- Python `round(x, 3)`. -/
def round3 (x : ℚ) : ℚ := (rndHalfEven (x * 1000) : ℚ) / 1000

/-- `convert_value` from the source, evaluation order preserved: the
`h/z/litres is None` test precedes unit normalization, which precedes
`float(h) - float(z)`; `float(litres)` is only reached after the
`usable_h <= 0` guard. `none` models an uncaught exception from `float(...)`
or `unit.strip()`. -/
def convert_value (raw_value : ℚ) (raw_unit : JVal) (meter : Dict) : Option (ℚ × JVal) :=
  if truthy (dget meter "scale_type") = false then
    some (raw_value, dget meter "display_unit")
  else if (dget meter "scale_type").eqStr "gasoil_linear" then
    if (dget meter "h_sensor_cm").isNull || (dget meter "zm_sensor_cm").isNull
        || (dget meter "litres_diposit").isNull then
      some (raw_value, dget meter "display_unit")
    else
      match _distance_to_cm raw_value raw_unit with
      | none => none
      | some raw_cm =>
        match pyFloat (dget meter "h_sensor_cm"), pyFloat (dget meter "zm_sensor_cm") with
        | some h, some z =>
          if h - z ≤ 0 then some (raw_value, dget meter "display_unit")
          else
            match pyFloat (dget meter "litres_diposit") with
            | some litres =>
              some (round3 (_clamp (_clamp (h - raw_cm) 0 (h - z) / (h - z) * litres) 0 litres),
                dget meter "display_unit")
            | none => none
        | _, _ => none
  else
    some (raw_value, dget meter "display_unit")

/-! ## Pipeline -/

/-- A FastAPI `HTTPException`: status code plus detail payload. -/
structure HTTPExc where
  status : ℕ
  detail : JVal

/-- An exception escaping a pipeline step: either an `HTTPException` or a
generic Python exception carrying a message. -/
inductive PyErr where
  | http (e : HTTPExc)
  | exc (msg : String)

/-- A call made to an external collaborator during one request: the
calibration lookup (a meters-table query) or the readings insert. -/
inductive Effect where
  | lookupMeter (meter_id : String)
  | insertRow (row : Dict)

/-- A JSON response body. -/
abbrev Resp := Dict

/-- `Optional[str]` to JSON. -/
def optStr : Option String → JVal
  | none => JVal.null
  | some s => JVal.str s

/-- `Optional[float]` to JSON. -/
def optNum : Option ℚ → JVal
  | none => JVal.null
  | some q => JVal.num q

/-- Does the effect trace contain a storage insert? -/
def hasInsert : List Effect → Bool
  | [] => false
  | Effect.insertRow _ :: _ => true
  | _ :: rest => hasInsert rest

/-- `ingest_core` from the source. `calib` is the meters-table lookup
(`get_meter_config`'s query; `none` = empty result set) and `store` is
`bq.insert_rows_json` (its returned error list). `now` is `utc_now_iso()`.
Returns the outcome together with the trace of collaborator calls. -/
def ingest_core (calib : String → Option Dict) (store : Dict → List JVal) (now : String)
    (meter_id : String) (raw_value : ℚ) (raw_unit : JVal) (location : JVal)
    (raw_payload_obj : Dict) (uplink_id : JVal)
    (battery_v temperature_c tilt_deg : Option ℚ) :
    Except PyErr Resp × List Effect :=
  match calib meter_id with
  | none =>
    (Except.error (PyErr.http ⟨404, JVal.str ("Meter not found: " ++ meter_id)⟩),
      [Effect.lookupMeter meter_id])
  | some meter =>
    match convert_value raw_value raw_unit meter with
    | none =>
      (Except.error (PyErr.exc "float() or unit.strip() raised inside convert_value"),
        [Effect.lookupMeter meter_id])
    | some (value, display_unit) =>
      let row : Dict := [
        ("event_time", JVal.str now),
        ("meter_id", JVal.str meter_id),
        ("location", location),
        ("value", JVal.num value),
        ("raw", JVal.str (jsonDumps (JVal.obj raw_payload_obj))),
        ("uplink_id", uplink_id),
        ("unit", display_unit),
        ("raw_value", JVal.num raw_value),
        ("raw_unit", raw_unit),
        ("raw_payload", if RAW_PAYLOAD_MODE = "json" then JVal.obj raw_payload_obj else JVal.null),
        ("group_id", dget meter "group_id"),
        ("battery_v", optNum battery_v),
        ("temperature_c", optNum temperature_c),
        ("tilt_deg", optNum tilt_deg)]
      if (store row).isEmpty = false then
        (Except.error (PyErr.http ⟨500, JVal.obj [("bq_errors", JVal.arr (store row))]⟩),
          [Effect.lookupMeter meter_id, Effect.insertRow row])
      else
        (Except.ok [
          ("status", JVal.str "inserted"),
          ("meter_id", JVal.str meter_id),
          ("group_id", dget meter "group_id"),
          ("raw_value", JVal.num raw_value),
          ("raw_unit", raw_unit),
          ("value", JVal.num value),
          ("unit", display_unit),
          ("battery_v", optNum battery_v),
          ("temperature_c", optNum temperature_c),
          ("tilt_deg", optNum tilt_deg),
          ("table_id", JVal.str (table_id TABLE_READINGS)),
          ("version", JVal.str VERSION)],
          [Effect.lookupMeter meter_id, Effect.insertRow row])

/-- The `try/except` wrapper shared by both routes: an `HTTPException`
propagates, any other exception becomes a 500 with a structured detail (the
`trace` component, a Python traceback string, is abstracted). -/
def wrap500 (route : String) (r : Except PyErr Resp × List Effect) :
    Except HTTPExc Resp × List Effect :=
  match r with
  | (Except.ok v, eff) => (Except.ok v, eff)
  | (Except.error (PyErr.http e), eff) => (Except.error e, eff)
  | (Except.error (PyErr.exc msg), eff) =>
    (Except.error ⟨500, JVal.obj [
        ("error", JVal.str ("Unhandled exception in " ++ route)),
        ("message", JVal.str msg),
        ("trace", JVal.str "<traceback>"),
        ("version", JVal.str VERSION)]⟩, eff)

/-- The `/ingest/{secret}` route (generic ingest) from the source, after JSON
body parsing: secret gate, required `meter_id` (truthy) and `value` (present
and convertible by `float`), optional unit/location/uplink_id and telemetry,
then `ingest_core` under the catch-all wrapper. -/
def ingest (calib : String → Option Dict) (store : Dict → List JVal) (now : String)
    (secret : String) (body : Dict) : Except HTTPExc Resp × List Effect :=
  if secret ≠ INGEST_SECRET then
    (Except.error ⟨403, JVal.str "Invalid secret"⟩, [])
  else if truthy (dget body "meter_id") = false then
    (Except.error ⟨400, JVal.str "Missing field: meter_id"⟩, [])
  else if hasKey body "value" = false then
    (Except.error ⟨400, JVal.str "Missing field: value"⟩, [])
  else
    match pyFloat (dget body "value") with
    | none => (Except.error ⟨400, JVal.str "Field value must be a number"⟩, [])
    | some raw_value =>
      wrap500 "/ingest" (ingest_core calib store now
        (pyStr (dget body "meter_id")) raw_value
        (dget body "unit") (dget body "location") body (dget body "uplink_id")
        (_safe_float (dget body "battery_v"))
        (_safe_float (dget body "temperature_c"))
        (_safe_float (dget body "tilt_deg")))

/-- The `try:` block of `/ingest_chs` from the source: device-name
resolution, decoded-object extraction, `distancia_mm` requirement, best-effort
telemetry, then `ingest_core`. -/
def ingest_chs_try (calib : String → Option Dict) (store : Dict → List JVal) (now : String)
    (body : Dict) : Except PyErr Resp × List Effect :=
  match extract_device_name body with
  | none =>
    (Except.ok [("status", JVal.str "ignored"),
      ("reason", JVal.str "missing deviceInfo.deviceName"),
      ("version", JVal.str VERSION)], [])
  | some device_name =>
    if (dget (extract_df555_object body) "distancia_mm").isNull then
      (Except.ok [("status", JVal.str "ignored"),
        ("reason", JVal.str "missing object.distancia_mm"),
        ("meter_id", JVal.str (mapGetD CHS_DEVICE_MAP device_name device_name)),
        ("version", JVal.str VERSION)], [])
    else
      match pyFloat (dget (extract_df555_object body) "distancia_mm") with
      | none => (Except.error (PyErr.exc "could not convert object.distancia_mm to float"), [])
      | some raw_value =>
        ingest_core calib store now
          (mapGetD CHS_DEVICE_MAP device_name device_name) raw_value
          (JVal.str "mm") JVal.null body (optStr (extract_uplink_id body))
          (_safe_float (dget (extract_df555_object body) "bateria_V"))
          (_safe_float (dget (extract_df555_object body) "temperatura_C"))
          (_safe_float (dget (extract_df555_object body) "inclinacio_deg"))

/-- The `/ingest_chs/{secret}` route (ChirpStack adapter) from the source:
secret gate, then the `event` query-parameter filter (`if event and event !=
"up"` — note an *empty* event string is falsy and passes through), then the
`try:` block under the catch-all wrapper. -/
def ingest_chs (calib : String → Option Dict) (store : Dict → List JVal) (now : String)
    (secret : String) (event : Option String) (body : Dict) :
    Except HTTPExc Resp × List Effect :=
  if secret ≠ INGEST_SECRET then
    (Except.error ⟨403, JVal.str "Invalid secret"⟩, [])
  else
    match event with
    | some e =>
      if e ≠ "" ∧ e ≠ "up" then
        (Except.ok [("status", JVal.str "ignored"),
          ("reason", JVal.str ("event=" ++ e)),
          ("version", JVal.str VERSION)], [])
      else wrap500 "/ingest_chs" (ingest_chs_try calib store now body)
    | none => wrap500 "/ingest_chs" (ingest_chs_try calib store now body)

/-- The named field of a successful response (`null` on an error outcome);
lets claims about response fields be stated without destructuring. -/
def okField (r : Except HTTPExc Resp × List Effect) (key : String) : JVal :=
  match r.1 with
  | Except.ok resp => dget resp key
  | Except.error _ => JVal.null

/-- `true` iff the outcome is a non-error (2xx) response. -/
def isOkResp (r : Except HTTPExc Resp × List Effect) : Bool :=
  match r.1 with
  | Except.ok _ => true
  | Except.error _ => false

/-! ## Arithmetic lemmas about rounding and clamping -/

theorem rndHalfEven_nonneg {x : ℚ} (hx : 0 ≤ x) : 0 ≤ rndHalfEven x := by
  have h0 : 0 ≤ ⌊x⌋ := Int.floor_nonneg.mpr hx
  unfold rndHalfEven
  split_ifs <;> omega

theorem rndHalfEven_le {x : ℚ} : (rndHalfEven x : ℚ) ≤ x + 1/2 := by
  have h0 : (⌊x⌋ : ℚ) ≤ x := Int.floor_le x
  unfold rndHalfEven
  split_ifs with h1 h2 h3 <;> push_cast <;> linarith

theorem rndHalfEven_le_int {x : ℚ} {n : ℤ} (h : x ≤ (n : ℚ)) : rndHalfEven x ≤ n := by
  have h1 := rndHalfEven_le (x := x)
  have h2 : (rndHalfEven x : ℚ) < (n : ℚ) + 1 := by linarith
  have h3 : rndHalfEven x < n + 1 := by exact_mod_cast h2
  omega

theorem round3_nonneg {x : ℚ} (hx : 0 ≤ x) : 0 ≤ round3 x := by
  have h := rndHalfEven_nonneg (x := x * 1000) (by linarith)
  have h2 : (0 : ℚ) ≤ (rndHalfEven (x * 1000) : ℚ) := by exact_mod_cast h
  unfold round3
  linarith

theorem round3_le (x : ℚ) : round3 x ≤ x + 1/2000 := by
  have h := rndHalfEven_le (x := x * 1000)
  unfold round3
  linarith

theorem round3_le_cap {x L : ℚ} {n : ℤ} (hn : (n : ℚ) = 1000 * L) (h : x ≤ L) :
    round3 x ≤ L := by
  have h1 : x * 1000 ≤ (n : ℚ) := by rw [hn]; linarith
  have h2 : rndHalfEven (x * 1000) ≤ n := rndHalfEven_le_int h1
  have h3 : (rndHalfEven (x * 1000) : ℚ) ≤ (n : ℚ) := by exact_mod_cast h2
  unfold round3
  rw [hn] at h3
  linarith

theorem _clamp_nonneg {x hi : ℚ} (h : 0 ≤ hi) : 0 ≤ _clamp x 0 hi := by
  unfold _clamp
  split_ifs <;> linarith

theorem _clamp_le {x hi : ℚ} (h : 0 ≤ hi) : _clamp x 0 hi ≤ hi := by
  unfold _clamp
  split_ifs <;> linarith

/-! ## Example fixtures -/

/-- A well-formed `gasoil_linear` meter: `H = 200`, `Z = 50`, `L = 1000`. -/
def meterHZL : Dict :=
  [("meter_id", JVal.str "gasoil_escola"),
   ("scale_type", JVal.str "gasoil_linear"),
   ("display_unit", JVal.str "L"),
   ("h_sensor_cm", JVal.num 200),
   ("zm_sensor_cm", JVal.num 50),
   ("litres_diposit", JVal.num 1000),
   ("group_id", JVal.str "gasoil")]

/-- A degenerate but complete `gasoil_linear` meter whose capacity
`litres_diposit = 0.0006 L` is not a multiple of 0.001. -/
def meterTinyCap : Dict :=
  [("scale_type", JVal.str "gasoil_linear"),
   ("display_unit", JVal.str "L"),
   ("h_sensor_cm", JVal.num 200),
   ("zm_sensor_cm", JVal.num 50),
   ("litres_diposit", JVal.num (3/5000))]

/-- Evaluation of the unit normalizer on a literal `"mm"` unit. -/
theorem distance_mm_eval (v : ℚ) : _distance_to_cm v (JVal.str "mm") = some (v / 10) := by
  simp only [_distance_to_cm]
  rw [if_pos (by decide)]

/-! ## C1 — gasoil_linear conversion formula -/

/-- Evaluation lemma: on a complete numeric `gasoil_linear` calibration with
positive usable height, `convert_value` is the clamped-linear-rounded
formula. -/
theorem convert_value_gasoil_eq
    (raw : ℚ) (unit : JVal) (meter : Dict) (H Z L rawCm : ℚ)
    (hscale : dget meter "scale_type" = JVal.str "gasoil_linear")
    (hH : dget meter "h_sensor_cm" = JVal.num H)
    (hZ : dget meter "zm_sensor_cm" = JVal.num Z)
    (hL : dget meter "litres_diposit" = JVal.num L)
    (hunit : _distance_to_cm raw unit = some rawCm)
    (hpos : 0 < H - Z) :
    convert_value raw unit meter =
      some (round3 (_clamp (_clamp (H - rawCm) 0 (H - Z) / (H - Z) * L) 0 L),
        dget meter "display_unit") := by
  simp only [convert_value, hscale, hH, hZ, hL, hunit, truthy, JVal.eqStr, JVal.isNull,
    pyFloat]
  simp only [decide_eq_true_eq, decide_eq_false_iff_not, ne_eq, not_true_eq_false,
    not_false_eq_true]
  rw [if_neg (by simp), if_pos (by simp), if_neg (by simp)]
  rw [if_neg (not_le.mpr hpos)]

/-- Claim C1 (amended): for every numeric `rawValue`, every unit that the
normalizer accepts (`mm`/`cm`/`m`/unknown strings/null), and every
`gasoil_linear` calibration with numeric `h_sensor_cm = H`,
`zm_sensor_cm = Z`, `litres_diposit = L` satisfying `H - Z > 0` and `L ≥ 0`,
`convert_value` returns
`round(clamp(clamp(H - rawCm, 0, H-Z) / (H-Z) * L, 0, L), 3)` with the
record's display unit — the denominator is the usable height `H - Z`, never
the dead zone `Z`. The result is never negative and exceeds `L` by at most
`0.0005`; whenever `1000·L` is an integer (in particular for whole-litre
capacities) it never exceeds `L`. -/
theorem convert_gasoil_linear_formula
    (raw : ℚ) (unit : JVal) (meter : Dict) (H Z L rawCm : ℚ)
    (hscale : dget meter "scale_type" = JVal.str "gasoil_linear")
    (hH : dget meter "h_sensor_cm" = JVal.num H)
    (hZ : dget meter "zm_sensor_cm" = JVal.num Z)
    (hL : dget meter "litres_diposit" = JVal.num L)
    (hunit : _distance_to_cm raw unit = some rawCm)
    (hpos : 0 < H - Z) (hLnn : 0 ≤ L) :
    convert_value raw unit meter =
      some (round3 (_clamp (_clamp (H - rawCm) 0 (H - Z) / (H - Z) * L) 0 L),
        dget meter "display_unit")
    ∧ 0 ≤ round3 (_clamp (_clamp (H - rawCm) 0 (H - Z) / (H - Z) * L) 0 L)
    ∧ round3 (_clamp (_clamp (H - rawCm) 0 (H - Z) / (H - Z) * L) 0 L) ≤ L + 1/2000
    ∧ ∀ n : ℤ, (n : ℚ) = 1000 * L →
        round3 (_clamp (_clamp (H - rawCm) 0 (H - Z) / (H - Z) * L) 0 L) ≤ L := by
  refine ⟨?_, ?_, ?_, ?_⟩
  · exact convert_value_gasoil_eq raw unit meter H Z L rawCm hscale hH hZ hL hunit hpos
  · exact round3_nonneg (_clamp_nonneg hLnn)
  · have h1 := round3_le (_clamp (_clamp (H - rawCm) 0 (H - Z) / (H - Z) * L) 0 L)
    have h2 := _clamp_le (x := _clamp (H - rawCm) 0 (H - Z) / (H - Z) * L) hLnn
    linarith
  · intro n hn
    exact round3_le_cap hn (_clamp_le hLnn)

/-- Claim C1 witness: `H = 200`, `Z = 50`, `L = 1000`, raw `100 mm`
(`rawCm = 10`): the formula applies and evaluates to `1000.0` litres. -/
theorem convert_gasoil_linear_formula_witness :
    convert_value 100 (JVal.str "mm") meterHZL =
      some (round3 (_clamp (_clamp (200 - 10) 0 (200 - 50) / (200 - 50) * 1000) 0 1000),
        dget meterHZL "display_unit")
    ∧ round3 (_clamp (_clamp (200 - 10) 0 (200 - 50) / (200 - 50) * 1000) 0 1000) = 1000 := by
  constructor
  · exact (convert_gasoil_linear_formula 100 (JVal.str "mm") meterHZL 200 50 1000 10
      rfl rfl rfl rfl (by rw [distance_mm_eval]; norm_num) (by norm_num) (by norm_num)).1
  · norm_num [_clamp, round3, rndHalfEven]

/-- Claim C1 counterexample to "the result always lies in `[0, L]`": for the
complete, positive-capacity calibration `H = 200`, `Z = 50`,
`L = 0.0006` (`= 3/5000`), raw `100 mm` converts to `0.001` litres — the
3-decimal rounding pushes the result strictly above the capacity `L`. -/
theorem convert_gasoil_linear_range_cex :
    convert_value 100 (JVal.str "mm") meterTinyCap = some (1/1000, JVal.str "L")
    ∧ ¬ (1/1000 : ℚ) ≤ 3/5000 := by
  refine ⟨?_, by norm_num⟩
  rw [convert_value_gasoil_eq 100 (JVal.str "mm") meterTinyCap 200 50 (3/5000) 10
    rfl rfl rfl rfl (by rw [distance_mm_eval]; norm_num) (by norm_num)]
  have hdu : dget meterTinyCap "display_unit" = JVal.str "L" := rfl
  rw [hdu]
  have hrnd : rndHalfEven (3/5) = 1 := by
    unfold rndHalfEven
    norm_num
  have hval : _clamp (_clamp ((200 : ℚ) - 10) 0 (200 - 50) / (200 - 50) * (3/5000)) 0 (3/5000)
      = 3/5000 := by
    norm_num [_clamp]
  rw [hval]
  unfold round3
  norm_num [hrnd]

/-! ## C2, C3 — fallback behavior of the conversion engine -/

/-- A `gasoil_linear` meter missing `h_sensor_cm`. -/
def meterMissingParam : Dict :=
  [("scale_type", JVal.str "gasoil_linear"),
   ("display_unit", JVal.str "L"),
   ("zm_sensor_cm", JVal.num 50),
   ("litres_diposit", JVal.num 1000)]

/-- A complete `gasoil_linear` meter whose usable height `H - Z = -150` is
invalid. -/
def meterBadGeometry : Dict :=
  [("scale_type", JVal.str "gasoil_linear"),
   ("display_unit", JVal.str "L"),
   ("h_sensor_cm", JVal.num 50),
   ("zm_sensor_cm", JVal.num 200),
   ("litres_diposit", JVal.num 1000)]

/-- A meter with an unrecognized scale_type. -/
def meterUnknownScale : Dict :=
  [("scale_type", JVal.str "water_quadratic"),
   ("display_unit", JVal.str "L")]

@[simp] theorem isNull_num (q : ℚ) : (JVal.num q).isNull = false := rfl

@[simp] theorem isNull_str (s : String) : (JVal.str s).isNull = false := rfl

@[simp] theorem isNull_null : JVal.null.isNull = true := rfl

/-- Evaluation lemma: every `gasoil_linear` fallback path (a geometry
parameter absent, or numeric geometry with non-positive usable height)
returns the pass-through pair. -/
theorem convert_value_gasoil_fallback_eq
    (raw : ℚ) (unit : JVal) (meter : Dict)
    (hscale : dget meter "scale_type" = JVal.str "gasoil_linear")
    (hcase : (dget meter "h_sensor_cm").isNull = true
      ∨ (dget meter "zm_sensor_cm").isNull = true
      ∨ (dget meter "litres_diposit").isNull = true
      ∨ ∃ H Z rawCm, dget meter "h_sensor_cm" = JVal.num H
          ∧ dget meter "zm_sensor_cm" = JVal.num Z
          ∧ _distance_to_cm raw unit = some rawCm ∧ H - Z ≤ 0) :
    convert_value raw unit meter = some (raw, dget meter "display_unit") := by
  simp only [convert_value, hscale, truthy, JVal.eqStr]
  simp only [decide_eq_true_eq, decide_eq_false_iff_not, ne_eq, not_true_eq_false,
    not_false_eq_true]
  rw [if_neg (by simp), if_pos (by simp)]
  rcases hcase with h | h | h | ⟨H, Z, rawCm, hH, hZ, hu, hle⟩
  · rw [if_pos (by simp [h])]
  · rw [if_pos (by simp [h])]
  · rw [if_pos (by simp [h])]
  · by_cases hlit : (dget meter "litres_diposit").isNull = true
    · rw [if_pos (by simp [hlit])]
    · have hlit' : (dget meter "litres_diposit").isNull = false := by
        revert hlit
        cases (dget meter "litres_diposit").isNull <;> simp
      rw [if_neg (by simp [hH, hZ, hlit']), hu, hH, hZ]
      simp only [pyFloat]
      rw [if_pos hle]

/-- Claim C3: for every `gasoil_linear` calibration in which `h_sensor_cm`,
`zm_sensor_cm` or `litres_diposit` is absent, or in which the numeric usable
height `H - Z` is non-positive, `convert_value` falls back to pass-through:
it returns exactly the raw value with the record's display_unit (in
particular it returns `some _` — it never raises — and the dividing branch is
never reached). -/
theorem convert_gasoil_fallback_passthrough
    (raw : ℚ) (unit : JVal) (meter : Dict)
    (hscale : dget meter "scale_type" = JVal.str "gasoil_linear")
    (hcase : (dget meter "h_sensor_cm").isNull = true
      ∨ (dget meter "zm_sensor_cm").isNull = true
      ∨ (dget meter "litres_diposit").isNull = true
      ∨ ∃ H Z rawCm, dget meter "h_sensor_cm" = JVal.num H
          ∧ dget meter "zm_sensor_cm" = JVal.num Z
          ∧ _distance_to_cm raw unit = some rawCm ∧ H - Z ≤ 0) :
    convert_value raw unit meter = some (raw, dget meter "display_unit") :=
  convert_value_gasoil_fallback_eq raw unit meter hscale hcase

/-- Claim C3 witness: a `gasoil_linear` meter with `h_sensor_cm` absent
passes a raw `42 mm` reading through unchanged. -/
theorem convert_gasoil_fallback_passthrough_witness :
    convert_value 42 (JVal.str "mm") meterMissingParam
      = some (42, dget meterMissingParam "display_unit") :=
  convert_gasoil_fallback_passthrough 42 (JVal.str "mm") meterMissingParam rfl
    (Or.inl rfl)

/-- Claim C2 counterexample: `convert_value` returns a bare
`(value, display_unit)` pair with no diagnostics map: the three distinct
fallback causes the claim requires to be distinguishable — missing
calibration params, invalid usable height, unknown scale type — all return
the identical pass-through pair `(42, "L")`, and no `rawCm` / `usableHeight`
/ `levelCm` intermediates or fallback reason appear anywhere in the returned
value. -/
theorem convert_diagnostics_cex :
    convert_value 42 (JVal.str "mm") meterMissingParam = some (42, JVal.str "L")
    ∧ convert_value 42 (JVal.str "mm") meterBadGeometry = some (42, JVal.str "L")
    ∧ convert_value 42 (JVal.str "mm") meterUnknownScale = some (42, JVal.str "L") := by
  refine ⟨?_, ?_, ?_⟩
  · exact convert_value_gasoil_fallback_eq 42 (JVal.str "mm") meterMissingParam rfl
      (Or.inl rfl)
  · exact convert_value_gasoil_fallback_eq 42 (JVal.str "mm") meterBadGeometry rfl
      (Or.inr (Or.inr (Or.inr ⟨50, 200, 42/10,
        rfl, rfl, distance_mm_eval 42, by norm_num⟩)))
  · rfl

/-- Claim C2 (amended): `ConversionEngine.convert` returns only the pair
`(value, display_unit)` — no diagnostics map with intermediates and no
machine-readable fallback reason exists in its result. Every fallback path
(unknown scale type, missing calibration params, invalid usable height)
returns exactly the pass-through pair, indistinguishable across causes. -/
theorem convert_no_diagnostics
    (raw : ℚ) (unit : JVal) (meter : Dict)
    (hcase : (truthy (dget meter "scale_type") = true
        ∧ (dget meter "scale_type").eqStr "gasoil_linear" = false)
      ∨ (dget meter "scale_type" = JVal.str "gasoil_linear"
        ∧ ((dget meter "h_sensor_cm").isNull = true
          ∨ (dget meter "zm_sensor_cm").isNull = true
          ∨ (dget meter "litres_diposit").isNull = true
          ∨ ∃ H Z rawCm, dget meter "h_sensor_cm" = JVal.num H
              ∧ dget meter "zm_sensor_cm" = JVal.num Z
              ∧ _distance_to_cm raw unit = some rawCm ∧ H - Z ≤ 0))) :
    convert_value raw unit meter = some (raw, dget meter "display_unit") := by
  rcases hcase with ⟨ht, hne⟩ | ⟨hscale, hcase⟩
  · simp only [convert_value]
    rw [if_neg (by simp [ht]), if_neg (by simp [hne])]
  · exact convert_value_gasoil_fallback_eq raw unit meter hscale hcase

/-- Claim C2 amended witness: a meter with unknown scale_type
`"water_quadratic"` passes a raw `42 mm` reading through unchanged. -/
theorem convert_no_diagnostics_witness :
    convert_value 42 (JVal.str "mm") meterUnknownScale
      = some (42, dget meterUnknownScale "display_unit") :=
  convert_no_diagnostics 42 (JVal.str "mm") meterUnknownScale
    (Or.inl ⟨rfl, rfl⟩)

/-! ## C4 — unit normalizer -/

/-- Claim C4: the unit normalizer is total over every numeric value and every
string-or-null unit — it always returns a value, never raising; it divides by
10 for `"mm"`, is the identity for `"cm"`, multiplies by 100 for `"m"`,
matching case-insensitively after trimming whitespace; unknown strings and a
null unit return the value unchanged; and applying the inverse ratio to the
result recovers the original value exactly. -/
theorem unit_normalizer_total (v : ℚ) (s : String) :
    _distance_to_cm v JVal.null = some v
    ∧ (pyLower (pyStrip s) = "mm" →
        _distance_to_cm v (JVal.str s) = some (v / 10) ∧ v / 10 * 10 = v)
    ∧ (pyLower (pyStrip s) = "cm" → _distance_to_cm v (JVal.str s) = some v)
    ∧ (pyLower (pyStrip s) = "m" →
        _distance_to_cm v (JVal.str s) = some (v * 100) ∧ v * 100 / 100 = v)
    ∧ (pyLower (pyStrip s) ≠ "mm" → pyLower (pyStrip s) ≠ "cm" → pyLower (pyStrip s) ≠ "m" →
        _distance_to_cm v (JVal.str s) = some v)
    ∧ (_distance_to_cm v (JVal.str s)).isSome = true := by
  refine ⟨rfl, ?_, ?_, ?_, ?_, ?_⟩
  · intro h
    refine ⟨?_, by field_simp⟩
    simp only [_distance_to_cm]
    rw [if_pos h]
  · intro h
    simp only [_distance_to_cm]
    rw [if_neg (by simp [h]), if_pos h]
  · intro h
    refine ⟨?_, by field_simp⟩
    simp only [_distance_to_cm]
    rw [if_neg (by simp [h]), if_neg (by simp [h]), if_pos h]
  · intro h1 h2 h3
    simp only [_distance_to_cm]
    rw [if_neg h1, if_neg h2, if_neg h3]
  · simp only [_distance_to_cm]
    split_ifs <;> rfl

/-- Claim C4 witness: `" MM "` (needing both trim and lower-casing) is
recognized as millimeters: `7 mm` normalizes to `0.7 cm`, and multiplying
back by 10 recovers `7`. -/
theorem unit_normalizer_total_witness :
    _distance_to_cm 7 (JVal.str " MM ") = some (7 / 10) ∧ (7 : ℚ) / 10 * 10 = 7 :=
  (unit_normalizer_total 7 " MM ").2.1 (by decide)

/-! ## Pipeline fixtures -/

/-- A meter with no scale_type: conversion is pass-through. -/
def meterPlain : Dict :=
  [("display_unit", JVal.str "mm"), ("group_id", JVal.str "g1")]

/-- A calibration store knowing only `gasoil_escola`. -/
def calibPlain : String → Option Dict :=
  fun id => if id = "gasoil_escola" then some meterPlain else none

/-- A calibration store knowing only `m1`. -/
def calibM1 : String → Option Dict :=
  fun id => if id = "m1" then some meterPlain else none

/-- A storage collaborator that always succeeds (empty error list). -/
def storeOk : Dict → List JVal := fun _ => []

/-- A ChirpStack uplink payload: mapped device name, decoded object nested at
`uplink.object` with `distancia_mm = 350`. -/
def chsBody350 : Dict :=
  [("deviceInfo", JVal.obj [("deviceName", JVal.str "nivell_gasoil_escola")]),
   ("uplink", JVal.obj [("object", JVal.obj [("distancia_mm", JVal.num 350)])])]

/-! ## C5 — non-measurement events -/

/-- Claim C5 counterexample: an event classifier that is *present but empty*
(`?event=`) is present and not equal to `"up"`, yet the handler's `if event
and event != "up"` truthiness test treats it as absent: the request proceeds
to a full ingestion — the response status is `"inserted"`, not `"ignored"`,
and the storage insert *is* invoked. -/
theorem chs_event_ignored_cex :
    okField (ingest_chs calibPlain storeOk "2026-02-22T22:00:00Z" "massanet123" (some "")
      chsBody350) "status" = JVal.str "inserted"
    ∧ hasInsert (ingest_chs calibPlain storeOk "2026-02-22T22:00:00Z" "massanet123" (some "")
      chsBody350).2 = true := ⟨rfl, rfl⟩

/-- Claim C5 (amended): for every request whose event classifier is present,
*non-empty* and not equal to `"up"` (e.g. `"join"`, `"status"`), the outcome
is a 200 "ignored" response carrying the machine-readable reason
`event=<e>` — never a validation error — and the effect trace is empty:
neither the calibration lookup nor the storage insert is invoked. (An empty
event string is falsy in Python and passes through; see the
counterexample.) -/
theorem chs_nonup_event_ignored
    (calib : String → Option Dict) (store : Dict → List JVal) (now : String)
    (e : String) (body : Dict) (he : e ≠ "") (hup : e ≠ "up") :
    ingest_chs calib store now INGEST_SECRET (some e) body
      = (Except.ok [("status", JVal.str "ignored"),
          ("reason", JVal.str ("event=" ++ e)),
          ("version", JVal.str VERSION)], []) := by
  simp only [ingest_chs]
  rw [if_neg (by simp), if_pos ⟨he, hup⟩]

/-- Claim C5 witness: a `"join"` event on any body is ignored with reason
`event=join` and an empty effect trace. -/
theorem chs_nonup_event_ignored_witness :
    ingest_chs calibPlain storeOk "2026-02-22T22:00:00Z" INGEST_SECRET (some "join") chsBody350
      = (Except.ok [("status", JVal.str "ignored"),
          ("reason", JVal.str ("event=" ++ "join")),
          ("version", JVal.str VERSION)], []) :=
  chs_nonup_event_ignored calibPlain storeOk "2026-02-22T22:00:00Z" "join" chsBody350
    (by decide) (by decide)

/-! ## C6 — decoded-object extraction -/

/-- First dict-typed value in a list of candidates (empty dict when none). -/
def firstDictD : List JVal → Dict
  | [] => []
  | v :: rest =>
    match asObj v with
    | some o => o
    | none => firstDictD rest

/-- The guarded two-step access of the source (`isinstance(u, dict) and
isinstance(u.get("object"), dict)`) equals the one-step `jget` access. -/
theorem asObj_bind_jget (v : JVal) (k : String) :
    (asObj v).bind (fun u => asObj (dget u k)) = asObj (jget v k) := by
  cases v <;> rfl

/-- Evaluation lemma: `extract_df555_object` is the first-dict-wins rule over
the ordered candidate list. -/
theorem extract_first_dict (body : Dict) :
    extract_df555_object body
      = firstDictD [dget body "object", jget (dget body "uplink") "object",
          jget (dget body "event") "object"] := by
  cases h1 : asObj (dget body "object") <;>
    cases h2 : asObj (jget (dget body "uplink") "object") <;>
      cases h3 : asObj (jget (dget body "event") "object") <;>
        simp only [extract_df555_object, firstDictD, asObj_bind_jget, h1, h2, h3]

/-- A ChirpStack body with a resolvable device name whose decoded object
lacks `distancia_mm`. -/
def chsNoDistBody : Dict :=
  [("deviceInfo", JVal.obj [("deviceName", JVal.str "dev-x")]),
   ("object", JVal.obj [("temperatura_C", JVal.num 21)])]

/-- Claim C6: the decoded measurement object is the first dict-typed match in
the order top-level `object`, `uplink.object`, `event.object`; when the
chosen object lacks `distancia_mm` the outcome is a 200 "ignored" response
(carrying the resolved meter id), not an error, with no collaborator calls;
and the concrete payload with `uplink.object.distancia_mm = 350` and mapped
device name `nivell_gasoil_escola` resolves to meter id `gasoil_escola` with
`raw_value = 350.0` and `raw_unit = "mm"`. -/
theorem chs_object_extraction
    (calib : String → Option Dict) (store : Dict → List JVal) (now : String)
    (body : Dict) (dn : String)
    (hdn : extract_device_name body = some dn)
    (hmiss : dget (extract_df555_object body) "distancia_mm" = JVal.null) :
    extract_df555_object body
      = firstDictD [dget body "object", jget (dget body "uplink") "object",
          jget (dget body "event") "object"]
    ∧ ingest_chs calib store now INGEST_SECRET none body
      = (Except.ok [("status", JVal.str "ignored"),
          ("reason", JVal.str "missing object.distancia_mm"),
          ("meter_id", JVal.str (mapGetD CHS_DEVICE_MAP dn dn)),
          ("version", JVal.str VERSION)], [])
    ∧ okField (ingest_chs calibPlain storeOk "2026-02-22T22:00:00Z" INGEST_SECRET (some "up")
        chsBody350) "meter_id" = JVal.str "gasoil_escola"
    ∧ okField (ingest_chs calibPlain storeOk "2026-02-22T22:00:00Z" INGEST_SECRET (some "up")
        chsBody350) "raw_value" = JVal.num 350
    ∧ okField (ingest_chs calibPlain storeOk "2026-02-22T22:00:00Z" INGEST_SECRET (some "up")
        chsBody350) "raw_unit" = JVal.str "mm" := by
  refine ⟨extract_first_dict body, ?_, rfl, rfl, rfl⟩
  simp only [ingest_chs, ingest_chs_try, hdn, hmiss, isNull_null, wrap500]
  simp

/-- Claim C6 witness: for the concrete body `chsNoDistBody` (top-level decoded
object without `distancia_mm`), the outcome is the ignored response carrying
the resolved meter id `dev-x`. -/
theorem chs_object_extraction_witness :
    ingest_chs calibPlain storeOk "2026-02-22T22:00:00Z" INGEST_SECRET none chsNoDistBody
      = (Except.ok [("status", JVal.str "ignored"),
          ("reason", JVal.str "missing object.distancia_mm"),
          ("meter_id", JVal.str (mapGetD CHS_DEVICE_MAP "dev-x" "dev-x")),
          ("version", JVal.str VERSION)], []) :=
  (chs_object_extraction calibPlain storeOk "2026-02-22T22:00:00Z" chsNoDistBody "dev-x"
    rfl rfl).2.1

/-! ## C7 — unknown device id -/

/-- A calibration store with no records at all. -/
def calibNone : String → Option Dict := fun _ => none

/-- Claim C7: an ingestion whose device id has no calibration record fails with
HTTP 404 (`"Meter not found: <id>"`) and the storage insert is never
attempted: the effect trace holds exactly the one lookup call. -/
theorem ingest_core_not_found
    (calib : String → Option Dict) (store : Dict → List JVal) (now meter_id : String)
    (raw_value : ℚ) (raw_unit location : JVal) (payload : Dict) (uplink_id : JVal)
    (bv tc td : Option ℚ)
    (h : calib meter_id = none) :
    ingest_core calib store now meter_id raw_value raw_unit location payload uplink_id bv tc td
      = (Except.error (PyErr.http ⟨404, JVal.str ("Meter not found: " ++ meter_id)⟩),
        [Effect.lookupMeter meter_id])
    ∧ hasInsert (ingest_core calib store now meter_id raw_value raw_unit location payload
        uplink_id bv tc td).2 = false := by
  have heq : ingest_core calib store now meter_id raw_value raw_unit location payload
      uplink_id bv tc td
      = (Except.error (PyErr.http ⟨404, JVal.str ("Meter not found: " ++ meter_id)⟩),
        [Effect.lookupMeter meter_id]) := by
    simp only [ingest_core, h]
  refine ⟨heq, ?_⟩
  rw [heq]
  rfl

/-- Claim C7 witness: with an empty calibration store, ingesting for device
`"m9"` yields the 404 error and a lookup-only effect trace. -/
theorem ingest_core_not_found_witness :
    ingest_core calibNone storeOk "2026-02-22T22:00:00Z" "m9" 5 JVal.null JVal.null []
        JVal.null none none none
      = (Except.error (PyErr.http ⟨404, JVal.str ("Meter not found: " ++ "m9")⟩),
        [Effect.lookupMeter "m9"])
    ∧ hasInsert (ingest_core calibNone storeOk "2026-02-22T22:00:00Z" "m9" 5 JVal.null
        JVal.null [] JVal.null none none none).2 = false :=
  ingest_core_not_found calibNone storeOk "2026-02-22T22:00:00Z" "m9" 5 JVal.null JVal.null []
    JVal.null none none none rfl

/-! ## C8 — response faithfulness -/

/-- The named field of a successful `ingest_core` response. -/
def okFieldCore (r : Except PyErr Resp × List Effect) (key : String) : JVal :=
  match r.1 with
  | Except.ok resp => dget resp key
  | Except.error _ => JVal.null

/-- `true` iff the `ingest_core` outcome is a success. -/
def isOkCore (r : Except PyErr Resp × List Effect) : Bool :=
  match r.1 with
  | Except.ok _ => true
  | Except.error _ => false

/-- Claim C8: every successful ingest response contains both `raw_value` and
`value`, and the `value` field is exactly the conversion engine's result on
the same raw value, raw unit and calibration record (the `unit` field is
likewise the engine's display unit) — no reformatting between conversion and
response. -/
theorem ingest_core_value_faithful
    (calib : String → Option Dict) (store : Dict → List JVal) (now meter_id : String)
    (raw_value : ℚ) (raw_unit location : JVal) (payload : Dict) (uplink_id : JVal)
    (bv tc td : Option ℚ) (meter : Dict) (v : ℚ) (du : JVal)
    (hm : calib meter_id = some meter)
    (hc : convert_value raw_value raw_unit meter = some (v, du))
    (hok : isOkCore (ingest_core calib store now meter_id raw_value raw_unit location payload
        uplink_id bv tc td) = true) :
    okFieldCore (ingest_core calib store now meter_id raw_value raw_unit location payload
        uplink_id bv tc td) "raw_value" = JVal.num raw_value
    ∧ okFieldCore (ingest_core calib store now meter_id raw_value raw_unit location payload
        uplink_id bv tc td) "value" = JVal.num v
    ∧ okFieldCore (ingest_core calib store now meter_id raw_value raw_unit location payload
        uplink_id bv tc td) "unit" = du := by
  simp only [ingest_core, hm, hc, RAW_PAYLOAD_MODE] at hok ⊢
  simp only [String.reduceEq, if_false] at hok ⊢
  split at hok
  case isTrue hcond => simp [isOkCore] at hok
  case isFalse hcond =>
    rw [if_neg hcond]
    refine ⟨?_, ?_, ?_⟩ <;> simp [okFieldCore, dget]

/-- Claim C8 witness: a pass-through meter, raw value `5`: the response's
`raw_value` and `value` both equal `5` and `unit` is the record's display
unit. -/
theorem ingest_core_value_faithful_witness :
    okFieldCore (ingest_core calibM1 storeOk "2026-02-22T22:00:00Z" "m1" 5 JVal.null JVal.null
        [] JVal.null none none none) "raw_value" = JVal.num 5
    ∧ okFieldCore (ingest_core calibM1 storeOk "2026-02-22T22:00:00Z" "m1" 5 JVal.null JVal.null
        [] JVal.null none none none) "value" = JVal.num 5
    ∧ okFieldCore (ingest_core calibM1 storeOk "2026-02-22T22:00:00Z" "m1" 5 JVal.null JVal.null
        [] JVal.null none none none) "unit" = JVal.str "mm" :=
  ingest_core_value_faithful calibM1 storeOk "2026-02-22T22:00:00Z" "m1" 5 JVal.null JVal.null
    [] JVal.null none none none meterPlain 5 (JVal.str "mm") rfl rfl rfl

/-! ## C9 — generic ingest validation -/

/-- Claim C9: in the generic ingest route, a missing (or falsy) `meter_id`
yields HTTP 400 "Missing field: meter_id"; a missing `value` key yields HTTP
400 "Missing field: value"; a `value` that `float()` cannot parse yields HTTP
400 "Field value must be a number" — all before any collaborator call; when
both are present and the value parses, the request is handed to the core
pipeline with `unit`, `location`, `uplink_id` and the `_safe_float`-parsed
telemetry fields passed through, none of which can fail validation; in
particular a minimal body with only `meter_id` and `value` ingests
successfully. -/
theorem ingest_direct_validation
    (calib : String → Option Dict) (store : Dict → List JVal) (now : String)
    (body : Dict) (rv : ℚ) :
    (truthy (dget body "meter_id") = false →
      ingest calib store now INGEST_SECRET body
        = (Except.error ⟨400, JVal.str "Missing field: meter_id"⟩, []))
    ∧ (truthy (dget body "meter_id") = true → hasKey body "value" = false →
      ingest calib store now INGEST_SECRET body
        = (Except.error ⟨400, JVal.str "Missing field: value"⟩, []))
    ∧ (truthy (dget body "meter_id") = true → hasKey body "value" = true →
      pyFloat (dget body "value") = none →
      ingest calib store now INGEST_SECRET body
        = (Except.error ⟨400, JVal.str "Field value must be a number"⟩, []))
    ∧ (truthy (dget body "meter_id") = true → hasKey body "value" = true →
      pyFloat (dget body "value") = some rv →
      ingest calib store now INGEST_SECRET body
        = wrap500 "/ingest" (ingest_core calib store now (pyStr (dget body "meter_id")) rv
            (dget body "unit") (dget body "location") body (dget body "uplink_id")
            (_safe_float (dget body "battery_v")) (_safe_float (dget body "temperature_c"))
            (_safe_float (dget body "tilt_deg"))))
    ∧ okField (ingest calibM1 storeOk now INGEST_SECRET
        [("meter_id", JVal.str "m1"), ("value", JVal.num 5)]) "status"
        = JVal.str "inserted" := by
  refine ⟨?_, ?_, ?_, ?_, rfl⟩
  · intro h1
    simp only [ingest]
    rw [if_neg (by simp), if_pos h1]
  · intro h1 h2
    simp only [ingest]
    rw [if_neg (by simp), if_neg (by simp [h1]), if_pos h2]
  · intro h1 h2 h3
    simp only [ingest]
    rw [if_neg (by simp), if_neg (by simp [h1]), if_neg (by simp [h2]), h3]
  · intro h1 h2 h3
    simp only [ingest]
    rw [if_neg (by simp), if_neg (by simp [h1]), if_neg (by simp [h2]), h3]

/-- Claim C9 witness: the empty body is rejected with 400 "Missing field:
meter_id". -/
theorem ingest_direct_validation_witness :
    ingest calibM1 storeOk "2026-02-22T22:00:00Z" INGEST_SECRET []
      = (Except.error ⟨400, JVal.str "Missing field: meter_id"⟩, []) :=
  (ingest_direct_validation calibM1 storeOk "2026-02-22T22:00:00Z" [] 0).1 rfl

/-! ## C10 — unparseable distancia_mm versus telemetry -/

/-- A ChirpStack body whose `distancia_mm` is present but not a number. -/
def chsBadDistBody : Dict :=
  [("deviceInfo", JVal.obj [("deviceName", JVal.str "dev-x")]),
   ("object", JVal.obj [("distancia_mm", JVal.arr [])])]

/-- A ChirpStack body with a numeric `distancia_mm` but an unparseable
`bateria_V`. -/
def chsBadTelemetryBody : Dict :=
  [("deviceInfo", JVal.obj [("deviceName", JVal.str "nivell_gasoil_escola")]),
   ("object", JVal.obj [("distancia_mm", JVal.num 350), ("bateria_V", JVal.arr [])])]

/-- Claim C10: in the ChirpStack adapter, a `distancia_mm` that is present but
not parseable by `float()` makes the request fail with the 500
internal-error response (before any collaborator call) — whereas the
telemetry fields go through `_safe_float`, so the request proceeds to the
core pipeline whatever they hold, and any `float()`-unparseable telemetry
value becomes null rather than failing the request. -/
theorem chs_distancia_unparseable
    (calib : String → Option Dict) (store : Dict → List JVal) (now : String)
    (body : Dict) (dn : String) (q : ℚ)
    (hdn : extract_device_name body = some dn) :
    ((dget (extract_df555_object body) "distancia_mm").isNull = false →
      pyFloat (dget (extract_df555_object body) "distancia_mm") = none →
      ingest_chs calib store now INGEST_SECRET none body
        = (Except.error ⟨500, JVal.obj [
            ("error", JVal.str ("Unhandled exception in " ++ "/ingest_chs")),
            ("message", JVal.str "could not convert object.distancia_mm to float"),
            ("trace", JVal.str "<traceback>"),
            ("version", JVal.str VERSION)]⟩, []))
    ∧ ((dget (extract_df555_object body) "distancia_mm").isNull = false →
      pyFloat (dget (extract_df555_object body) "distancia_mm") = some q →
      ingest_chs calib store now INGEST_SECRET none body
        = wrap500 "/ingest_chs" (ingest_core calib store now (mapGetD CHS_DEVICE_MAP dn dn) q
            (JVal.str "mm") JVal.null body (optStr (extract_uplink_id body))
            (_safe_float (dget (extract_df555_object body) "bateria_V"))
            (_safe_float (dget (extract_df555_object body) "temperatura_C"))
            (_safe_float (dget (extract_df555_object body) "inclinacio_deg"))))
    ∧ (∀ x : JVal, pyFloat x = none → _safe_float x = none) := by
  refine ⟨?_, ?_, ?_⟩
  · intro h1 h2
    simp only [ingest_chs, ingest_chs_try, hdn, h2, wrap500]
    rw [if_neg (by simp), if_neg (by simp [h1])]
  · intro h1 h2
    simp only [ingest_chs, ingest_chs_try, hdn, h2, wrap500]
    rw [if_neg (by simp), if_neg (by simp [h1])]
  · intro x hx
    cases x <;> first | rfl | exact hx

/-- Claim C10 witness: a body with `distancia_mm = []` fails with the 500
internal error and no collaborator calls, while a body with a numeric
`distancia_mm` and `bateria_V = []` ingests successfully with a null
`battery_v`. -/
theorem chs_distancia_unparseable_witness :
    ingest_chs calibPlain storeOk "2026-02-22T22:00:00Z" INGEST_SECRET none chsBadDistBody
      = (Except.error ⟨500, JVal.obj [
          ("error", JVal.str ("Unhandled exception in " ++ "/ingest_chs")),
          ("message", JVal.str "could not convert object.distancia_mm to float"),
          ("trace", JVal.str "<traceback>"),
          ("version", JVal.str VERSION)]⟩, [])
    ∧ okField (ingest_chs calibPlain storeOk "2026-02-22T22:00:00Z" INGEST_SECRET none
        chsBadTelemetryBody) "status" = JVal.str "inserted"
    ∧ okField (ingest_chs calibPlain storeOk "2026-02-22T22:00:00Z" INGEST_SECRET none
        chsBadTelemetryBody) "battery_v" = JVal.null :=
  ⟨(chs_distancia_unparseable calibPlain storeOk "2026-02-22T22:00:00Z" chsBadDistBody "dev-x"
      0 rfl).1 rfl rfl,
   rfl, rfl⟩
